import Mathlib

/-!
Verification of the friction-ai edge worker (quota-and-admission control layer
and provider adapters) against its natural-language specification.

The repository contains several generations of the same Cloudflare worker:
* `src/unnamed/part_000` (also `part_005`) — the handler with
  `getVerifiedGoogleUser`, `enforceLimits`, `bumpCounter`;
* `src/src/index.js` — the handler with `verifyGoogleToken`,
  `enforceRateLimit`, `logAnalytics`;
* `functions/api/chat.js` — the Pages-function handler.

This file shallowly embeds the functions the claims are about.  Conventions:
* JavaScript epoch-millisecond times are `Int`; machine arithmetic that wraps
  (FNV-1a hash, `hashEmail`) is done with explicit `% 2^32`.
* The key-value store is a list of entries with absolute expiry times plus
  per-key failure policies for `get`/`put`; a failed operation is
  `Except.error ()` (a thrown exception unless the source catches it).
* Stored values are structured (`Val`): the counter record `"${count}|${start}"`
  is `Val.ctr count start`, plain numeric strings are `Val.num`, the token-cache
  JSON object is `Val.tok`, and the analytics JSON object is `Val.day`.
  Serialization/parsing is modelled where its behaviour is determinate
  (`parseInt` of a counter string yields the count, etc.).
* Outbound network calls (Google tokeninfo, LLM providers) are oracles passed
  as function arguments, per the spec's treatment of them as external
  collaborators.
-/

namespace Spec2Proof

/-! ## JavaScript primitives -/

/-- Whitespace as matched by JavaScript `\s` / trimmed by `String.prototype.trim`
(ASCII fragment; all strings in this development are ASCII). -/
def isJsWsChar (c : Char) : Bool :=
  c = ' ' || c = '\t' || c = '\n' || c = '\r' || c = '\x0b' || c = '\x0c'

/-- JavaScript `String.prototype.trim` (ASCII fragment). -/
def jsTrim (s : String) : String :=
  ⟨((s.data.dropWhile isJsWsChar).reverse.dropWhile isJsWsChar).reverse⟩

/-- JavaScript `String.prototype.toLowerCase` on one character
(ASCII fragment: A-Z map to a-z, everything else is fixed). -/
def jsLowerChar (c : Char) : Char :=
  if 'A' ≤ c && c ≤ 'Z' then Char.ofNat (c.toNat + 32) else c

/-- JavaScript `String.prototype.toLowerCase` (ASCII fragment). -/
def jsToLower (s : String) : String := ⟨s.data.map jsLowerChar⟩

/-- JavaScript `String.prototype.slice(0, n)` (`n ≥ 0`). -/
def jsSlice (s : String) (n : Nat) : String := ⟨s.data.take n⟩

/-- JavaScript `Math.ceil(x / 1000)` for an integer number of milliseconds `x`. -/
def ceilDiv1000 (x : Int) : Int := (x + 999) / 1000

/-- One step of the FNV-1a loop in `hashShort`:
`h ^= str.charCodeAt(i); h = Math.imul(h, 16777619)`, tracked modulo 2^32
(`Math.imul` is a 32-bit multiply and the final `>>> 0` reinterprets the
accumulator as unsigned, so the unsigned residue is exact). -/
def hashStep (h : Nat) (c : Nat) : Nat := ((h ^^^ c) * 16777619) % 4294967296

/-- The function `hashShort` from `part_000` / `part_005`: FNV-1a over the char codes,
rendered as lowercase hex by `(h >>> 0).toString(16)`. -/
def hashShort (s : String) : String :=
  ⟨Nat.toDigits 16 (s.data.foldl (fun h c => hashStep h c.toNat) 2166136261)⟩

/-- Reinterpret an unsigned 32-bit residue as a signed 32-bit value
(the effect of JavaScript `hash & hash` / `| 0`). -/
def toSigned32 (n : Nat) : Int :=
  if n < 2147483648 then (n : Int) else (n : Int) - 4294967296

/-- Digit characters of `Number.prototype.toString(36)`. -/
def base36Char (n : Nat) : Char := if n < 10 then Char.ofNat (48 + n) else Char.ofNat (87 + n)

/-- Fuel-driven base-36 digit expansion (fuel bounds the digit count). -/
def natToBase36Go : Nat → Nat → List Char → List Char
  | 0, n, acc => base36Char (n % 36) :: acc
  | fuel + 1, n, acc =>
    if n < 36 then base36Char n :: acc
    else natToBase36Go fuel (n / 36) (base36Char (n % 36) :: acc)

/-- JavaScript `Number.prototype.toString(36)` for a natural number. -/
def natToBase36 (n : Nat) : String := ⟨natToBase36Go n n []⟩

/-- The function `hashEmail` from `src/src/index.js`: the `((hash << 5) - hash) + char`
loop coerced to 32 bits by `hash & hash`, then `"user_" + Math.abs(hash).toString(36)`. -/
def hashEmail (email : String) : String :=
  let h : Int := email.data.foldl
    (fun h c => toSigned32 ((h * 31 + c.toNat).emod 4294967296).toNat) 0
  "user_" ++ natToBase36 h.natAbs

/-! ## The key-value store

`FRICTION_KV` modelled as an association list of live entries with absolute
expiry, together with per-key failure policies.  An entry whose expiry has
passed behaves as absent (Cloudflare KV semantics); `expiresAt = none` means
the entry was written without `expirationTtl`. -/

/-- A stored value.  `ctr c s` stands for the counter string `"${c}|${s}"`;
`num n` for the decimal string `"${n}"`; `tok` for the token-cache JSON record;
`day` for the per-day analytics JSON record. -/
inductive Val where
  | ctr (count : Int) (start : Int)
  | num (n : Int)
  | tok (sub : String) (aud : String) (email : String) (isAdmin : Bool)
  | day (messages : Int) (users : List (String × Int)) (models : List (String × Int))
      (signups : Int)
deriving DecidableEq, Repr

structure Entry where
  key : String
  val : Val
  expiresAt : Option Int
deriving DecidableEq, Repr

/-- The store: live entries plus which keys' `get`/`put` currently error
(modelling an unreachable or partially failing KV service). -/
structure Store where
  entries : List Entry
  failGet : String → Bool
  failPut : String → Bool

/-- Is the entry visible at time `now`? -/
def Entry.live (e : Entry) (now : Int) : Bool :=
  match e.expiresAt with
  | none => true
  | some t => decide (now < t)

/-- The live value at `k` as seen at `now` (the store's lookup, failure policy
aside). -/
def Store.lookupVal (s : Store) (now : Int) (k : String) : Option Val :=
  (s.entries.find? (fun e => e.key == k && e.live now)).map Entry.val

/-- The operation `kv.get(key)`: the value of the live entry at `key`, or an error if the
store is failing for that key. -/
def Store.get (s : Store) (now : Int) (k : String) : Except Unit (Option Val) :=
  if s.failGet k then .error ()
  else .ok (s.lookupVal now k)

/-- The operation `kv.put` with `expirationTtl`: replaces the entry at `key`;
`ttlSeconds = none` models a put without `expirationTtl`. -/
def Store.put (s : Store) (now : Int) (k : String) (v : Val) (ttlSeconds : Option Int) :
    Except Unit Store :=
  if s.failPut k then .error ()
  else .ok { s with
    entries := ⟨k, v, ttlSeconds.map (fun t => now + t * 1000)⟩ ::
      s.entries.filter (fun e => e.key != k) }

/-- A store with no data and no failures. -/
def emptyStore : Store := ⟨[], fun _ => false, fun _ => false⟩

/-- A store on which every `get` and every `put` errors (the key-value service
completely unreachable). -/
def deadStore : Store := ⟨[], fun _ => true, fun _ => true⟩

/-! ## Rate limiting (`part_000` / `part_005`) -/

/-- Wall-clock inputs of one request: `Date.now()` in ms, the UTC day stamp
`new Date().toISOString().split("T")[0]`, `dayStampSydney()`, and
`secondsUntilSydneyMidnight()` (the latter three involve the realtime clock and
Intl timezone data, so they enter the model as inputs). -/
structure Clock where
  now : Int
  today : String
  sydneyDay : String
  sydneyMidnight : Int
deriving Repr

/-- Result of `bumpCounter`: the post-increment count and the retry-after hint. -/
structure BumpResult where
  count : Int
  retryAfter : Int
deriving DecidableEq, Repr

/-- Read a stored raw value the way `bumpCounter` parses it
(`raw.split("|")`, `Number(parts[0] || "0")`, `Number(parts[1] || String(now))`):
a counter record yields its two fields; a plain number `n` yields count `n` and
window start `now` (no `"|"` in the string); absent yields `(0, now)` via the
code's fresh-window defaults.  Other value shapes never occur at counter keys
in this development. -/
def parseCtr (raw : Option Val) (now : Int) : Int × Int :=
  match raw with
  | some (.ctr c s) => (c, s)
  | some (.num n) => (n, now)
  | _ => (0, now)

/-- The pattern `kv.get(key).catch(() => null)`: a failing read swallowed to absent. -/
def kvGetCaught (s : Store) (now : Int) (k : String) : Option Val :=
  match s.get now k with
  | .error _ => none
  | .ok v => v

/-- The function `bumpCounter(kv, key, ttlSeconds)` from `part_000` lines 526-548.
The `get` failure is swallowed (`.catch(() => null)`); the `put` failure is
not caught and propagates. -/
def bumpCounter (now : Int) (kv : Store) (key : String) (ttlSeconds : Int) :
    Except Unit (BumpResult × Store) := do
  let raw : Option Val := kvGetCaught kv now key
  let (count₀, start) := parseCtr raw now
  let count := count₀ + 1
  let windowMs := ttlSeconds * 1000
  let elapsed := now - start
  let retryAfter := max 1 (ceilDiv1000 (windowMs - elapsed))
  let kv' ← kv.put now key (.ctr count start) (some ttlSeconds)
  return (⟨count, retryAfter⟩, kv')

/-- JavaScript `parseInt(await kv.get(key) || '0')` over the structured value model. -/
def parseIntVal (raw : Option Val) : Int :=
  match raw with
  | some (.num n) => n
  | some (.ctr c _) => c
  | _ => 0

/-- The function `trackRateLimitEvent(kv, type)` from `part_000` lines 550-555.  Neither the
`get` nor the `put` is caught, so a store failure propagates. -/
def trackRateLimitEvent (clk : Clock) (kv : Store) : Except Unit Store := do
  let key := "stats:ratelimited:" ++ clk.today
  let current ← kv.get clk.now key
  kv.put clk.now key (.num (parseIntVal current + 1)) (some (60 * 60 * 24 * 7))

/-- The outcome of `enforceLimits`: `allowed`, or denied with the event type
recorded by `trackRateLimitEvent` on that branch (the deny's "reason"), the
user-facing error message, and `retryAfterSeconds`. -/
inductive LimitResult where
  | allowed
  | denied (reason : String) (error : String) (retryAfterSeconds : Int)
deriving DecidableEq, Repr

/-- The function `enforceLimits` from `part_000` lines 484-524:
per-user 10-second burst (limit 5), per-IP 10-second burst (limit 10), then the
Sydney-day window against 200 or the stored per-user override.  The
`admin:limit` read is not caught and propagates a store failure. -/
def enforceLimits (clk : Clock) (kv : Store) (userId ip : String) :
    Except Unit (LimitResult × Store) := do
  let (userBurst, kv) ← bumpCounter clk.now kv ("u:" ++ userId ++ ":10s") 10
  if userBurst.count > 5 then
    let kv ← trackRateLimitEvent clk kv
    return (.denied "user_burst" "Slow down a bit (friction time). Try again shortly."
      userBurst.retryAfter, kv)
  else
  let (ipBurst, kv) ← bumpCounter clk.now kv ("ip:" ++ ip ++ ":10s") 10
  if ipBurst.count > 10 then
    let kv ← trackRateLimitEvent clk kv
    return (.denied "ip_burst" "Too many requests from this network. Try again shortly."
      ipBurst.retryAfter, kv)
  else
  let dayKey := "u:" ++ userId ++ ":day:" ++ clk.sydneyDay
  let ttl := clk.sydneyMidnight
  let (userDaily, kv) ← bumpCounter clk.now kv dayKey ttl
  let customLimit ← kv.get clk.now ("admin:limit:" ++ userId)
  let dailyLimit : Int :=
    match customLimit with
    | some (.num n) => n
    | _ => 200
  if userDaily.count > dailyLimit then
    let kv ← trackRateLimitEvent clk kv
    return (.denied "daily_limit" "Daily limit reached. Come back tomorrow."
      userDaily.retryAfter, kv)
  else
  return (.allowed, kv)

/-- A sequence of admission checks for successive requests, each seeing the
store state the previous one left behind. -/
def runLimits (userId ip : String) : List Clock → Store → Except Unit (List LimitResult × Store)
  | [], kv => .ok ([], kv)
  | c :: cs, kv => do
    let (r, kv') ← enforceLimits c kv userId ip
    let (rs, kv'') ← runLimits userId ip cs kv'
    return (r :: rs, kv'')

/-! ## Rate limiting (`src/src/index.js` `enforceRateLimit`) -/

/-- Result shape of `enforceRateLimit`. -/
structure RLResult where
  allowed : Bool
  retryAfter : Int
deriving DecidableEq, Repr

/-- The function `enforceRateLimit(env, key, limit, windowSeconds)` from
`src/src/index.js` lines 1741-1762.  With no KV binding it returns
`{ allowed: true, retryAfter: 0 }`; with a binding, the `get` is not caught, so
a store failure propagates. -/
def enforceRateLimit (hasKv : Bool) (now : Int) (kv : Store) (key : String)
    (limit windowSeconds : Int) : Except Unit (RLResult × Store) := do
  if !hasKv then
    return (⟨true, 0⟩, kv)
  else
  let bucket := now / (windowSeconds * 1000)
  let storageKey := "rate:" ++ key ++ ":" ++ toString bucket
  let existing ← kv.get now storageKey
  let count := parseIntVal existing
  if count ≥ limit then
    let elapsed := (now / 1000) % windowSeconds
    return (⟨false, max 1 (windowSeconds - elapsed)⟩, kv)
  else
  let kv' ← kv.put now storageKey (.num (count + 1)) (some windowSeconds)
  return (⟨true, 0⟩, kv')

/-! ## Identity verification (`part_000` `getVerifiedGoogleUser`,
`src/src/index.js` `verifyGoogleToken`) -/

/-- The JSON body of a successful Google `tokeninfo` response; a field that the
response omits is the empty string (falsy, as the source's `!data.sub` /
`!data.email` guards treat it). -/
structure TokenInfo where
  aud : String
  sub : String
  email : String
deriving DecidableEq, Repr

/-- The external tokeninfo endpoint as an oracle: `none` models a non-ok HTTP
response (whose JSON, parsed or defaulted to `{}`, then fails every guard). -/
abbrev TokeninfoOracle := String → Option TokenInfo

/-- Extraction of the bearer credential from the `Authorization` header:
`authz.match(/^Bearer\s+(.+)$/i)` followed by `match[1].trim()`, with `""` when
there is no match (the source's `idToken` default). -/
def bearerToken (authz : String) : String :=
  let cs := authz.data
  if cs.take 6 |>.map jsLowerChar |>.beq "bearer".data then
    let rest := cs.drop 6
    if (rest.takeWhile isJsWsChar).isEmpty then ""
    else jsTrim ⟨rest.dropWhile isJsWsChar⟩
  else ""

/-- The test `email.toLowerCase() === env.ADMIN_EMAIL.toLowerCase()` — the
case-insensitive admin test of `part_000` (lines 78 and 453). -/
def googleIsAdmin (email adminEmail : String) : Bool :=
  jsToLower email == jsToLower adminEmail

/-- The test `userEmail === env.ADMIN_EMAIL` — the case-sensitive admin test of the
`src/src/index.js` chat route (line 82). -/
def chatIsAdmin (userEmail adminEmail : String) : Bool :=
  userEmail == adminEmail

/-- Result of `getVerifiedGoogleUser`. -/
inductive AuthRes where
  | fail (status : Int) (error : String)
  | ok (userId : String) (email : String) (isAdmin : Bool)
deriving DecidableEq, Repr

/-- The cache-miss path of `getVerifiedGoogleUser` (`part_000` lines 443-471):
network verification against the tokeninfo endpoint, audience/subject/email
guards, the case-insensitive admin flag, and the cache write (whose failure is
not caught and propagates). -/
def getVerifiedGoogleUserMiss (cid adminEmail : String) (g : TokeninfoOracle)
    (now : Int) (kv : Store) (idToken cacheKey : String) :
    Except Unit (AuthRes × Store) := do
  match g idToken with
  | none => return (.fail 401 "Invalid sign-in token.", kv)
  | some data =>
    if data.aud ≠ cid || data.sub = "" || data.email = "" then
      return (.fail 401 "Invalid sign-in token.", kv)
    else
      let isAdmin := googleIsAdmin data.email adminEmail
      let kv' ← kv.put now cacheKey (.tok data.sub data.aud data.email isAdmin) (some 3600)
      return (.ok data.sub data.email isAdmin, kv')

/-- The function `getVerifiedGoogleUser(request, env)` from `part_000` lines 418-472.
`clientId = none` models an unset `GOOGLE_CLIENT_ID` (`""` is equally falsy).
The cache `get` failure is swallowed (`.catch(() => null)`); a cached record is
used only if its `sub` is truthy and its recorded `aud` equals the configured
client id. -/
def getVerifiedGoogleUser (clientId : Option String) (adminEmail : String)
    (g : TokeninfoOracle) (now : Int) (kv : Store) (authz : String) :
    Except Unit (AuthRes × Store) := do
  let cid := clientId.getD ""
  if cid = "" then
    return (.fail 500 "Server missing GOOGLE_CLIENT_ID.", kv)
  else
  let idToken := bearerToken authz
  if idToken = "" then
    return (.fail 401 "Missing Authorization Bearer token.", kv)
  else
  let cacheKey := "tok:" ++ hashShort idToken
  match kvGetCaught kv now cacheKey with
  | some (.tok sub aud email isAdmin) =>
    if sub ≠ "" && aud == cid then
      return (.ok sub email isAdmin, kv)
    else
      getVerifiedGoogleUserMiss cid adminEmail g now kv idToken cacheKey
  | _ => getVerifiedGoogleUserMiss cid adminEmail g now kv idToken cacheKey

/-! ## Provider adapters -/

/-- A normalized chat message; roles are the literal strings `"user"` /
`"assistant"` (and `"system"` for prepended system prompts), as in the source. -/
structure Msg where
  role : String
  content : String
deriving DecidableEq, Repr

/-- One step of the merging loop in `handlePerplexity` (`part_000` lines
776-789, `src/src/index.js` lines 1200-1214), with the output list kept in
reverse: an empty accumulator takes the message; a same-role head absorbs the
content with a `"\n\n"` separator; otherwise the message is pushed. -/
def mergeStep (acc : List Msg) (m : Msg) : List Msg :=
  match acc with
  | [] => [m]
  | last :: rest =>
    if last.role == m.role then
      ⟨last.role, last.content ++ "\n\n" ++ m.content⟩ :: rest
    else
      m :: last :: rest

/-- The `alternating` list built by `handlePerplexity` before the call:
consecutive same-role messages merged so the roles strictly alternate. -/
def mergeAlternating (messages : List Msg) : List Msg :=
  (messages.foldl mergeStep []).reverse

/-- Adjacent messages never share a role. -/
def StrictAlt (l : List Msg) : Prop := List.Chain' (fun a b => a.role ≠ b.role) l

/-- The Claude response envelope, as far as `handleClaude` inspects it:
`data?.content?.[0]?.text`.  `content = none` models a missing/absent field,
`text = none` a block without a string `text`. -/
structure ClaudeBlock where
  text : Option String
deriving DecidableEq, Repr

structure ClaudeResp where
  content : Option (List ClaudeBlock)
deriving DecidableEq, Repr

/-- The extraction `data?.content?.[0]?.text`. -/
def claudeOut (r : ClaudeResp) : Option String :=
  (r.content.bind List.head?).bind ClaudeBlock.text

/-- The text-extraction tail of `handleClaude` (`part_000` lines 714-719, and
identically `src/src/index.js`): `if (!out) throw new Error(...)`.  The falsy
guard also rejects the empty string. -/
def handleClaudeText (r : ClaudeResp) : Except String String :=
  match claudeOut r with
  | none => .error "No valid response text from Claude."
  | some t => if t = "" then .error "No valid response text from Claude." else .ok t

/-- A JSON response as far as the claims inspect it: status, and whether the
body was the success shape `{ response: text }` or an error shape. -/
inductive Body where
  | response (text : String)
  | err
deriving DecidableEq, Repr

structure HttpOut where
  status : Int
  body : Body
  retryAfterHeader : Option Int
deriving DecidableEq, Repr

/-- An `HttpOut` without a `Retry-After` header. -/
def out (status : Int) (body : Body) : HttpOut := ⟨status, body, none⟩

/-- The Claude case of `functions/api/chat.js` (lines 91-116) after a 2xx
upstream reply: `responseText = data?.content?.[0]?.text || "No response from
Claude"`, then `json({ response: responseText }, 200)`.  The `||` substitutes
the placeholder for a missing or empty text. -/
def chatJsClaudeRespond (r : ClaudeResp) : HttpOut :=
  let t :=
    match claudeOut r with
    | none => "No response from Claude"
    | some s => if s = "" then "No response from Claude" else s
  out 200 (.response t)

/-! ## Usage analytics (`src/src/index.js` `logAnalytics`) -/

/-- An analytics event as `logAnalytics` consumes it (`data.timestamp` is
never read). -/
inductive AnalyticsEvent where
  | message (userHash : String) (model : String)
  | signup (userHash : String)
deriving DecidableEq, Repr

/-- JavaScript `(map[k] || 0) + 1` on a JSON object modelled as an association list. -/
def bumpAssoc (m : List (String × Int)) (k : String) : List (String × Int) :=
  match m.find? (fun p => p.1 == k) with
  | some _ => m.map (fun p => if p.1 == k then (p.1, p.2 + 1) else p)
  | none => m ++ [(k, 1)]

/-- The body of `logAnalytics`'s `try` block (`src/src/index.js` lines
1535-1554): read the per-day aggregate, default it, count the event, write it
back with a 90-day TTL.  A non-object stored value makes the mutation throw
(strict mode), hence `.error`. -/
def logAnalyticsBody (today : String) (now : Int) (kv : Store) (ev : AnalyticsEvent) :
    Except Unit Store := do
  let key := "analytics:" ++ today
  let existing ← kv.get now key
  let (messages, users, models, signups) ←
    match existing with
    | none => Except.ok ((0 : Int), ([] : List (String × Int)), ([] : List (String × Int)),
        (0 : Int))
    | some (.day m u mo s) => Except.ok (m, u, mo, s)
    | some _ => Except.error ()
  let upd : Val :=
    match ev with
    | .message userHash model =>
      .day (messages + 1) (bumpAssoc users userHash) (bumpAssoc models model) signups
    | .signup _ => .day messages users models (signups + 1)
  kv.put now key upd (some (90 * 24 * 60 * 60))

/-- The function `logAnalytics(env, data)` from `src/src/index.js` lines 1531-1558: an early
return when the KV binding is absent, and the whole body inside
`try { ... } catch (err) { console.error(...) }` — every internal failure is
swallowed and the function returns normally either way. -/
def logAnalyticsSrc (hasKv : Bool) (today : String) (now : Int) (kv : Store)
    (ev : AnalyticsEvent) : Store :=
  if !hasKv then kv
  else
    match logAnalyticsBody today now kv ev with
    | .ok kv' => kv'
    | .error _ => kv

/-! ## The chat request pipelines -/

/-- A raw inbound message: `content = none` models a missing or non-string
`content` field. -/
structure RawMsg where
  role : String
  content : Option String
deriving DecidableEq, Repr

def PAID_MODELS : List String := ["claude", "gpt", "grok", "perplexity"]

def KNOWN_MODELS : List String := ["gemini", "claude", "gpt", "grok", "perplexity"]

/-- The clean/normalize step shared by the handlers: keep messages whose
content is a string with nonempty trim, coerce the role, trim the content and
optionally cap it (`.slice(0, 8000)` in `part_000`; no cap in
`src/src/index.js`). -/
def cleanMessages (cap : Option Nat) (msgs : List RawMsg) : List Msg :=
  msgs.filterMap fun m =>
    match m.content with
    | none => none
    | some c =>
      if (jsTrim c).data.length > 0 then
        some ⟨if m.role == "assistant" then "assistant" else "user",
          match cap with
          | some n => jsSlice (jsTrim c) n
          | none => jsTrim c⟩
      else none

/-- The LLM providers as an oracle: model name and shaped message list to
generated text, or a thrown provider error.  (The adapters' own
request/response shaping is verified separately where a claim needs it.) -/
abbrev ProviderOracle := String → List Msg → Except Unit String

/-- The environment bindings `handleChat` (`part_000`) reads. -/
structure EnvP0 where
  aiEnabled : Bool
  hasKv : Bool
  adminEmail : String
  clientId : Option String

/-- The request data `handleChat` (`part_000`) reads.  `ip` is the resolved
client address (`getClientIp`); `bodyLen` is `bodyText.length`; `model` is
`body.model` (an unknown string stands for a missing field). -/
structure ChatReq where
  authz : String
  ip : String
  contentLength : Option Int
  bodyLen : Int
  model : String
  messages : List RawMsg

/-- The `try` block of `handleChat` (`part_000` lines 95-190): size cap,
message validation, admin-only gate on paid models, provider dispatch, then
the three usage-statistics read-modify-writes (none of whose store failures
are individually caught).  An `.error` is what the surrounding `catch`
receives. -/
def handleChatP0Body (req : ChatReq) (clk : Clock) (provider : ProviderOracle)
    (kv : Store) (isAdmin : Bool) (userId : String) : Except Unit (HttpOut × Store) := do
  if req.bodyLen > 50000 then return (out 413 .err, kv)
  else
  if req.messages.isEmpty then return (out 400 .err, kv)
  else
  if PAID_MODELS.contains req.model && !isAdmin then return (out 403 .err, kv)
  else
  let cleaned := cleanMessages (some 8000) req.messages
  if cleaned.isEmpty then
    return (out 200 (.response
      "Hey! Looks like your message didn't come through. Try sending something again?"), kv)
  else
  if ((cleaned.getLast?.map Msg.role).getD "") ≠ "user" then return (out 400 .err, kv)
  else
  if !(KNOWN_MODELS.contains req.model) then return (out 400 .err, kv)
  else
  let text ← provider req.model cleaned
  let k1 := "stats:model:" ++ req.model ++ ":" ++ clk.today
  let v1 ← kv.get clk.now k1
  let kv ← kv.put clk.now k1 (.num (parseIntVal v1 + 1)) (some (60 * 60 * 24 * 7))
  let k2 := "stats:requests:" ++ clk.today
  let v2 ← kv.get clk.now k2
  let kv ← kv.put clk.now k2 (.num (parseIntVal v2 + 1)) (some (60 * 60 * 24 * 7))
  let k3 := "user:requests:" ++ userId ++ ":total"
  let v3 ← kv.get clk.now k3
  let kv ← kv.put clk.now k3 (.num (parseIntVal v3 + 1)) none
  return (out 200 (.response text), kv)

/-- The function `handleChat(request, env)` from `part_000` lines 51-191.  The kill switch,
KV-binding guard, size cap, authentication, admin flag (line 78) and
`enforceLimits` run before the `try` block, so an exception in any of them
(store put failures in particular) propagates out of `handleChat` — hence the
outer `Except`.  The `catch` turns any failure inside the body into a 500
(the store state at the failure point is not tracked past the catch; no
theorem inspects it). -/
def handleChatP0 (env : EnvP0) (req : ChatReq) (clk : Clock) (g : TokeninfoOracle)
    (provider : ProviderOracle) (kv : Store) : Except Unit (HttpOut × Store) := do
  if !env.aiEnabled then return (out 503 .err, kv)
  else
  if !env.hasKv then return (out 500 .err, kv)
  else
  if (match req.contentLength with | some n => decide (n > 50000) | none => false) then
    return (out 413 .err, kv)
  else
  let (auth, kv) ← getVerifiedGoogleUser env.clientId env.adminEmail g clk.now kv req.authz
  match auth with
  | .fail status _ => return (out status .err, kv)
  | .ok userId email _ =>
    let isAdmin := email ≠ "" && googleIsAdmin email env.adminEmail
    let (rl, kv) ← enforceLimits clk kv userId req.ip
    match rl with
    | .denied _ _ retry => return (⟨429, .err, some retry⟩, kv)
    | .allowed =>
      match handleChatP0Body req clk provider kv isAdmin userId with
      | .error _ => return (out 500 .err, kv)
      | .ok r => return r

/-- The request data of the `src/src/index.js` chat route. -/
structure SrcReq where
  model : String
  messages : List RawMsg

/-- The body of the `/api/chat` route of `src/src/index.js` (lines 67-168,
inside its `try`): auth, the case-sensitive admin test (line 82), the
model-access check BEFORE everything else including rate limiting, message
validation, system-prompt prepending, `enforceRateLimit` (60 requests / 600 s
keyed by `"chat:" + hashEmail(email)`), `logAnalytics`, provider dispatch.
`auth = some email` models a valid `verifyUserToken` outcome. -/
def chatRouteSrcBody (adminEmail sysPrompt : String) (hasKv : Bool)
    (auth : Option String) (req : SrcReq) (clk : Clock) (provider : ProviderOracle)
    (kv : Store) : Except Unit (HttpOut × Store) := do
  match auth with
  | none => return (out 401 .err, kv)
  | some email =>
  let isAdmin := chatIsAdmin email adminEmail
  if PAID_MODELS.contains req.model && !isAdmin then return (out 403 .err, kv)
  else
  if req.messages.isEmpty then return (out 400 .err, kv)
  else
  let cleaned := cleanMessages none req.messages
  if cleaned.isEmpty then
    return (out 200 (.response
      "Hey! Looks like your message didn't come through. Try sending something again?"), kv)
  else
  if ((cleaned.getLast?.map Msg.role).getD "") ≠ "user" then return (out 400 .err, kv)
  else
  let messagesForModel :=
    if req.model ≠ "perplexity" then Msg.mk "system" sysPrompt :: cleaned else cleaned
  let (rate, kv) ← enforceRateLimit hasKv clk.now kv ("chat:" ++ hashEmail email) 60 600
  if !rate.allowed then return (⟨429, .err, some rate.retryAfter⟩, kv)
  else
  let kv := logAnalyticsSrc hasKv clk.today clk.now kv (.message (hashEmail email) req.model)
  if !(KNOWN_MODELS.contains req.model) then return (out 400 .err, kv)
  else
  let text ← provider req.model (if req.model == "perplexity" then cleaned else messagesForModel)
  return (out 200 (.response text), kv)

/-- The `/api/chat` route of `src/src/index.js` with its surrounding
`try/catch`: any exception inside the body (a store failure in
`enforceRateLimit`, a provider failure) becomes a 500 (store state at the
failure point not tracked past the catch). -/
def chatRouteSrc (adminEmail sysPrompt : String) (hasKv : Bool) (auth : Option String)
    (req : SrcReq) (clk : Clock) (provider : ProviderOracle) (kv : Store) :
    HttpOut × Store :=
  match chatRouteSrcBody adminEmail sysPrompt hasKv auth req clk provider kv with
  | .ok r => r
  | .error _ => (out 500 .err, kv)

/-- The HTTP status of a pipeline outcome (`none` = an exception escaped the
handler). -/
def respStatus (r : Except Unit (HttpOut × Store)) : Option Int :=
  match r with
  | .ok (o, _) => some o.status
  | .error _ => none

/-- The pipeline outcome's body (`none` = an exception escaped the handler). -/
def respBody (r : Except Unit (HttpOut × Store)) : Option Body :=
  match r with
  | .ok (o, _) => some o.body
  | .error _ => none

/-! ## Concrete scenario inputs -/

/-- A request clock at epoch-millisecond `t` (UTC day 2026-01-01, Sydney day
2026-01-02, 3600 s until Sydney midnight). -/
def sampleClock (t : Int) : Clock := ⟨t, "2026-01-01", "2026-01-02", 3600⟩

def sampleEnv : EnvP0 := ⟨true, true, "admin@friction.ai", some "cid"⟩

/-- A tokeninfo endpoint accepting every credential as user `user1`
(`bob@x.com`) with the matching audience `cid`. -/
def sampleTokeninfo : TokeninfoOracle := fun _ => some ⟨"cid", "user1", "bob@x.com"⟩

/-- Providers: `gemini` answers `"hello"`, every other call throws. -/
def sampleProvider : ProviderOracle := fun m _ => if m == "gemini" then .ok "hello" else .error ()

def claudeReq : ChatReq := ⟨"Bearer tok1", "1.2.3.4", none, 10, "claude", [⟨"user", some "hi"⟩]⟩

def geminiReq : ChatReq := ⟨"Bearer tok1", "1.2.3.4", none, 10, "gemini", [⟨"user", some "hi"⟩]⟩

/-- A store in which `user1` has already used the full 10-second burst
allowance (five requests recorded at t = 0). -/
def exhaustedBurstStore : Store :=
  ⟨[⟨"u:user1:10s", .ctr 5 0, some 10000⟩], fun _ => false, fun _ => false⟩

/-- A store that errors exactly on the gemini usage-statistics key read by
`handleChat`'s analytics section. -/
def statsFailStore : Store :=
  ⟨[], fun k => k == "stats:model:gemini:2026-01-01", fun _ => false⟩

/-! ## C1 — fail-closed admission under an unreachable store -/

/-- Claim C1 counterexample: with the `FRICTION_KV` binding absent — one of the
claim's "store cannot be consulted" situations — `enforceRateLimit`
(`src/src/index.js` lines 1742-1744) returns `allowed = true`, `retryAfter = 0`:
the admission path fails open, not closed, and no retryable denial is
produced. -/
theorem c1_counterexample :
    enforceRateLimit false 0 deadStore "chat:user_1" 60 600 = .ok (⟨true, 0⟩, deadStore) := rfl

/-- Claim C1 amended: when the KV binding is absent, `enforceRateLimit` fails
open (`allowed = true`, counterexample above).  When the binding is present but
the store is completely unreachable, no admission path returns
`allowed = true` — but neither is a retryable denial produced: `enforceLimits`
propagates the uncaught counter-write failure as an exception (its counter
reads are swallowed), and `enforceRateLimit` propagates its uncaught read
failure. -/
theorem c1_amended (clk : Clock) (kv : Store) (userId ip : String)
    (hg : ∀ k, kv.failGet k = true) (hp : ∀ k, kv.failPut k = true) :
    enforceLimits clk kv userId ip = .error () ∧
    ∀ now key limit window, enforceRateLimit true now kv key limit window = .error () := by
  constructor
  · simp [enforceLimits, bumpCounter, Store.get, Store.put, hg, hp, Bind.bind, Except.bind]
  · intro now key limit window
    simp [enforceRateLimit, Store.get, hg, Bind.bind, Except.bind]

/-- Witness for `c1_amended` at an unreachable store. -/
theorem c1_amended_witness :
    enforceLimits (sampleClock 0) deadStore "user1" "1.2.3.4" = .error () ∧
    enforceRateLimit true 0 deadStore "chat:user_1" 60 600 = .error () :=
  ⟨(c1_amended (sampleClock 0) deadStore "user1" "1.2.3.4" (fun _ => rfl) (fun _ => rfl)).1,
   (c1_amended (sampleClock 0) deadStore "user1" "1.2.3.4" (fun _ => rfl) (fun _ => rfl)).2
     0 "chat:user_1" 60 600⟩

/-! ## C4 — the admission check can raise -/

/-- Claim C4 counterexample: against a store whose operations fail
(`bumpCounter`'s uncaught `put` in particular), `enforceLimits` terminates with
an exception instead of returning an allow/deny decision. -/
theorem c4_counterexample :
    enforceLimits (sampleClock 0) deadStore "user1" "1.2.3.4" = .error () := rfl

/-! ## C6 — admin-flag case sensitivity -/

/-- Claim C6 counterexample: the `src/src/index.js` chat route (line 82)
computes `isAdmin` by exact string equality, so the email
`"Admin@friction.ai"`, which differs from the configured administrator email
`"admin@friction.ai"` only in letter case, yields `isAdmin = false` there —
while the `part_000` computation on the same pair yields `true`. -/
theorem c6_counterexample :
    chatIsAdmin "Admin@friction.ai" "admin@friction.ai" = false ∧
    jsToLower "Admin@friction.ai" = jsToLower "admin@friction.ai" ∧
    googleIsAdmin "Admin@friction.ai" "admin@friction.ai" = true := by decide

/-- Claim C6 amended: the `part_000` handler (`getVerifiedGoogleUser` line 453
and `handleChat` line 78) computes `isAdmin` case-insensitively, so any email
equal to the administrator email up to letter case yields `isAdmin = true`
there; the `src/src/index.js` chat route instead compares exactly, yielding
`isAdmin = false` for any literal difference. -/
theorem c6_amended (email adminEmail : String) :
    (jsToLower email = jsToLower adminEmail → googleIsAdmin email adminEmail = true) ∧
    (email ≠ adminEmail → chatIsAdmin email adminEmail = false) := by
  constructor
  · intro h
    simp [googleIsAdmin, h]
  · intro h
    simp [chatIsAdmin, h]

/-- Witness for `c6_amended` on a concrete case-variant pair. -/
theorem c6_amended_witness :
    googleIsAdmin "Admin@friction.ai" "admin@friction.ai" = true ∧
    chatIsAdmin "Admin@friction.ai" "admin@friction.ai" = false :=
  ⟨(c6_amended "Admin@friction.ai" "admin@friction.ai").1 (by decide),
   (c6_amended "Admin@friction.ai" "admin@friction.ai").2 (by decide)⟩

/-! ## C9 — empty provider responses -/

/-- Claim C9 counterexample: the Claude case of `functions/api/chat.js` (lines
111-115) maps an envelope with no generated text to the placeholder string
`"No response from Claude"` and returns it with status 200 as if it were the
model's answer — no typed `EmptyResponse` failure is surfaced. -/
theorem c9_counterexample :
    chatJsClaudeRespond ⟨none⟩ = out 200 (.response "No response from Claude") := rfl

/-- Claim C9 amended: the `index.js` adapters (`handleClaude` in `part_000`
lines 714-719 and identically in `src/src/index.js`) do fail with the typed
no-valid-response error whenever the envelope carries no (or empty) generated
text, and never return an empty string as an answer; the
`functions/api/chat.js` claude/gpt/grok/perplexity cases instead substitute a
fixed placeholder string returned as a 200 answer (counterexample above). -/
theorem c9_amended (r : ClaudeResp) :
    ((claudeOut r).getD "" = "" → handleClaudeText r = .error "No valid response text from Claude.") ∧
    (∀ s, handleClaudeText r = .ok s → s ≠ "") := by
  constructor
  · intro h
    unfold handleClaudeText
    match hco : claudeOut r with
    | none => rfl
    | some t =>
      rw [hco] at h
      simp at h
      simp [h]
  · intro s hs
    unfold handleClaudeText at hs
    cases hco : claudeOut r with
    | none => rw [hco] at hs; simp at hs
    | some t =>
      rw [hco] at hs
      by_cases ht : t = ""
      · simp [ht] at hs
      · simp [ht] at hs
        exact hs ▸ ht

/-- Witness for `c9_amended` at the empty envelope. -/
theorem c9_amended_witness :
    handleClaudeText ⟨none⟩ = .error "No valid response text from Claude." ∧
    ("hi" : String) ≠ "" :=
  ⟨(c9_amended ⟨none⟩).1 rfl,
   (c9_amended ⟨some [⟨some "hi"⟩]⟩).2 "hi" rfl⟩

/-! ## C3 — the retry-after contract -/

/-- The C3 trace: five requests at t = 0 ms, a sixth at t = 1000 ms, and the
retry at t = 10000 ms = 1000 ms + 9 s, i.e. exactly `retryAfterSeconds` after
the denial. -/
def c3Clocks : List Clock :=
  [sampleClock 0, sampleClock 0, sampleClock 0, sampleClock 0, sampleClock 0,
   sampleClock 1000, sampleClock 10000]

/-- Claim C3 counterexample: the 6th request (t = 1000 ms) is denied with
`retryAfterSeconds = 9` — the time to the window's natural expiry at
t = 10000 ms — but the caller who waits exactly those 9 seconds and retries at
t = 10000 ms is denied again (the denial's own write refreshed the store
expiration to t = 11000 ms and the stale window is never reset logically), with
no other requests from the subject in between and no other limit exhausted. -/
theorem c3_counterexample :
    (runLimits "u1" "ip1" c3Clocks emptyStore).toOption.map Prod.fst =
      some [.allowed, .allowed, .allowed, .allowed, .allowed,
        .denied "user_burst" "Slow down a bit (friction time). Try again shortly." 9,
        .denied "user_burst" "Slow down a bit (friction time). Try again shortly." 1] := rfl

/-! ## C7 — model-access check vs. rate-limit state -/

/-- Claim C7 counterexample: in `part_000`'s `handleChat`, `enforceLimits`
(line 81) runs before the paid-model check (line 109), so the same
paid-model request from a non-admin identity is answered 429 when the user's
burst window is exhausted, and 403 only when admission passes. -/
theorem c7_counterexample :
    respStatus (handleChatP0 sampleEnv claudeReq (sampleClock 500) sampleTokeninfo
      sampleProvider exhaustedBurstStore) = some 429 ∧
    respStatus (handleChatP0 sampleEnv claudeReq (sampleClock 500) sampleTokeninfo
      sampleProvider emptyStore) = some 403 := ⟨rfl, rfl⟩

/-! ## C10 — analytics failures and the primary response -/

/-- Claim C10 counterexample: in `part_000`'s `handleChat` the usage-statistics
read-modify-writes (lines 167-184) run inside the main `try` block with no
individual catch, so after a successful gemini call answering `"hello"`, a
store failure on the statistics key turns the request into a 500 error — the
provider's answer is lost.  The same request against a healthy store returns
200 with `"hello"`. -/
theorem c10_counterexample :
    respStatus (handleChatP0 sampleEnv geminiReq (sampleClock 500) sampleTokeninfo
      sampleProvider statsFailStore) = some 500 ∧
    respBody (handleChatP0 sampleEnv geminiReq (sampleClock 500) sampleTokeninfo
      sampleProvider statsFailStore) = some .err ∧
    respBody (handleChatP0 sampleEnv geminiReq (sampleClock 500) sampleTokeninfo
      sampleProvider emptyStore) = some (.response "hello") := ⟨rfl, rfl, rfl⟩

/-! ## C8 — strict alternation for the Perplexity adapter -/

/-- The step function `mergeStep` preserves the no-adjacent-equal-roles invariant of the
(reversed) accumulator. -/
theorem mergeStep_chain (acc : List Msg) (m : Msg)
    (h : List.Chain' (fun a b => a.role ≠ b.role) acc) :
    List.Chain' (fun a b => a.role ≠ b.role) (mergeStep acc m) := by
  cases acc with
  | nil => simp [mergeStep]
  | cons last rest =>
    rw [List.chain'_cons'] at h
    cases hr : (last.role == m.role) with
    | true =>
      simp only [mergeStep, hr, if_true]
      rw [List.chain'_cons']
      exact ⟨h.1, h.2⟩
    | false =>
      have hm : mergeStep (last :: rest) m = m :: last :: rest := by
        simp [mergeStep, hr]
      rw [hm, List.chain'_cons']
      refine ⟨?_, List.chain'_cons'.mpr h⟩
      intro y hy
      simp at hy
      subst hy
      exact fun he => by simp [he] at hr

/-- The merging fold keeps the accumulator free of adjacent equal roles. -/
theorem foldl_mergeStep_chain (ms : List Msg) (acc : List Msg)
    (h : List.Chain' (fun a b => a.role ≠ b.role) acc) :
    List.Chain' (fun a b => a.role ≠ b.role) (ms.foldl mergeStep acc) := by
  induction ms generalizing acc with
  | nil => exact h
  | cons m ms ih => exact ih _ (mergeStep_chain acc m h)

/-- Claim C8: the list `handlePerplexity` actually sends strictly alternates
roles — for every input, adjacent output messages have different roles; two
leading same-role messages are merged into one whose content is the two
contents joined by a blank line; and on the spec's example
`[user:"a", user:"b", assistant:"c"]` the adapter sends
`[user:"a\n\nb", assistant:"c"]`. -/
theorem c8_strict_alternation :
    (∀ messages : List Msg, StrictAlt (mergeAlternating messages)) ∧
    (∀ (r c1 c2 : String) (rest : List Msg),
      mergeAlternating (⟨r, c1⟩ :: ⟨r, c2⟩ :: rest) =
        mergeAlternating (⟨r, c1 ++ "\n\n" ++ c2⟩ :: rest)) ∧
    mergeAlternating [⟨"user", "a"⟩, ⟨"user", "b"⟩, ⟨"assistant", "c"⟩] =
      [⟨"user", "a\n\nb"⟩, ⟨"assistant", "c"⟩] := by
  refine ⟨?_, ?_, by decide⟩
  · intro messages
    unfold StrictAlt mergeAlternating
    rw [List.chain'_reverse]
    exact (foldl_mergeStep_chain messages [] (by simp)).imp fun a b hab hba => hab hba.symm
  · intro r c1 c2 rest
    simp [mergeAlternating, mergeStep]

/-! ## C5 — no cached identity for a mismatched audience -/

/-- Does the identity verifier's outcome reject the request as
Unauthenticated (status 401)? -/
def isUnauthenticated : AuthRes → Bool
  | .fail s _ => s == 401
  | .ok _ _ _ => false

/-- Claim C5: whenever the presented credential's audience claim does not
match the configured client id (`htok`) and any token-cache entry stored under
that credential's hash records a non-matching audience (`hcache`), the verifier
rejects with 401 and writes nothing: a cached identity is never returned for a
credential whose recorded audience does not match the expected client
identifier. -/
theorem c5_audience_check (clientId adminEmail : String) (g : TokeninfoOracle)
    (now : Int) (kv : Store) (authz : String)
    (hcid : clientId ≠ "")
    (htok : ∀ ti, g (bearerToken authz) = some ti → ti.aud ≠ clientId)
    (hcache : ∀ sub aud email adm,
      kvGetCaught kv now ("tok:" ++ hashShort (bearerToken authz)) =
        some (.tok sub aud email adm) → aud ≠ clientId) :
    getVerifiedGoogleUser (some clientId) adminEmail g now kv authz =
      .ok (.fail 401 (if bearerToken authz = "" then "Missing Authorization Bearer token."
        else "Invalid sign-in token."), kv) := by
  unfold getVerifiedGoogleUser
  simp only [Option.getD, if_neg hcid]
  by_cases hb : bearerToken authz = ""
  · simp [hb, pure, Except.pure]
  · simp only [hb, if_neg hb, if_false]
    have hmiss : getVerifiedGoogleUserMiss clientId adminEmail g now kv (bearerToken authz)
        ("tok:" ++ hashShort (bearerToken authz)) = .ok (.fail 401 "Invalid sign-in token.", kv) := by
      unfold getVerifiedGoogleUserMiss
      cases hg : g (bearerToken authz) with
      | none => simp [pure, Except.pure]
      | some ti =>
        have : ti.aud ≠ clientId := htok ti hg
        simp [this, pure, Except.pure]
    cases hc : kvGetCaught kv now ("tok:" ++ hashShort (bearerToken authz)) with
    | none => exact hmiss
    | some v =>
      cases v with
      | tok sub aud email adm =>
        have haud : aud ≠ clientId := hcache sub aud email adm hc
        simp [haud, hmiss]
      | ctr c s => simp [hmiss]
      | num n => simp [hmiss]
      | day a b c d => simp [hmiss]

/-- A tokeninfo endpoint whose audience claim is `"other"` for every
credential. -/
def badAudOracle : TokeninfoOracle := fun _ => some ⟨"other", "user1", "bob@x.com"⟩

/-- A store holding a stale cache entry, recorded with audience `"other"`,
under the hash of the credential `tok1`. -/
def poisonedCacheStore : Store :=
  ⟨[⟨"tok:" ++ hashShort "tok1", .tok "user1" "other" "bob@x.com" false, some 999999⟩],
   fun _ => false, fun _ => false⟩

/-- Witness for `c5_audience_check`: a poisoned-audience cache entry plus a
mismatched-audience credential is rejected 401. -/
theorem c5_audience_check_witness :
    getVerifiedGoogleUser (some "cid") "a@b.c" badAudOracle 0 poisonedCacheStore "Bearer tok1" =
      .ok (.fail 401 (if bearerToken "Bearer tok1" = "" then "Missing Authorization Bearer token."
        else "Invalid sign-in token."), poisonedCacheStore) :=
  c5_audience_check "cid" "a@b.c" badAudOracle 0 poisonedCacheStore "Bearer tok1"
    (by decide)
    (fun ti h => by
      have h' : (⟨"other", "user1", "bob@x.com"⟩ : TokenInfo) = ti := Option.some.inj h
      cases h'
      decide)
    (fun sub aud email adm h => by
      have h' := Option.some.inj
        (h.symm.trans (rfl :
          kvGetCaught poisonedCacheStore 0 ("tok:" ++ hashShort (bearerToken "Bearer tok1")) =
            kvGetCaught poisonedCacheStore 0 ("tok:" ++ hashShort (bearerToken "Bearer tok1"))))
      injection h'.symm with h1 h2 h3 h4
      subst h2
      decide)

/-! ## C2 — the per-user burst window

The composite keys `enforceLimits` touches are pairwise distinct for any
user id, client IP, and day stamp; these lemmas let symbolic store states be
evaluated. -/

theorem key_user_ne_ip (u ip : String) :
    ("u:" ++ u ++ ":10s" : String) ≠ "ip:" ++ ip ++ ":10s" := by
  intro h
  have h2 := congrArg String.data h
  simp [String.data_append] at h2

theorem key_user_ne_day (u d : String) :
    ("u:" ++ u ++ ":10s" : String) ≠ "u:" ++ u ++ ":day:" ++ d := by
  intro h
  have h2 := congrArg String.data h
  simp [String.data_append] at h2

theorem key_ip_ne_day (ip u d : String) :
    ("ip:" ++ ip ++ ":10s" : String) ≠ "u:" ++ u ++ ":day:" ++ d := by
  intro h
  have h2 := congrArg String.data h
  simp [String.data_append] at h2

theorem key_user_ne_admin (u v : String) :
    ("u:" ++ u ++ ":10s" : String) ≠ "admin:limit:" ++ v := by
  intro h
  have h2 := congrArg String.data h
  simp [String.data_append] at h2

theorem key_ip_ne_admin (ip v : String) :
    ("ip:" ++ ip ++ ":10s" : String) ≠ "admin:limit:" ++ v := by
  intro h
  have h2 := congrArg String.data h
  simp [String.data_append] at h2

theorem key_day_ne_admin (u d v : String) :
    ("u:" ++ u ++ ":day:" ++ d : String) ≠ "admin:limit:" ++ v := by
  intro h
  have h2 := congrArg String.data h
  simp [String.data_append] at h2

theorem key_user_ne_stats (u t : String) :
    ("u:" ++ u ++ ":10s" : String) ≠ "stats:ratelimited:" ++ t := by
  intro h
  have h2 := congrArg String.data h
  simp [String.data_append] at h2

theorem key_ip_ne_stats (ip t : String) :
    ("ip:" ++ ip ++ ":10s" : String) ≠ "stats:ratelimited:" ++ t := by
  intro h
  have h2 := congrArg String.data h
  simp [String.data_append] at h2

theorem key_day_ne_stats (u d t : String) :
    ("u:" ++ u ++ ":day:" ++ d : String) ≠ "stats:ratelimited:" ++ t := by
  intro h
  have h2 := congrArg String.data h
  simp [String.data_append] at h2

/-- The store state after `k` admitted requests from the same subject inside
one burst window: each counter holds `(k, t1)` where `t1` is the first
request's time, with expirations refreshed by the most recent write at `tp`
(the day record with the then-current seconds-to-midnight `mid`). -/
def burstStore (u ip d : String) (k t1 tp mid : Int) : Store :=
  ⟨[⟨"u:" ++ u ++ ":day:" ++ d, .ctr k t1, some (tp + mid * 1000)⟩,
    ⟨"ip:" ++ ip ++ ":10s", .ctr k t1, some (tp + 10000)⟩,
    ⟨"u:" ++ u ++ ":10s", .ctr k t1, some (tp + 10000)⟩],
   fun _ => false, fun _ => false⟩

/-- A first request from a fresh subject: admitted, and every counter starts a
window `(1, now)`. -/
theorem enforceLimits_fresh (c : Clock) (u ip : String) :
    enforceLimits c emptyStore u ip =
      .ok (.allowed, burstStore u ip c.sydneyDay 1 c.now c.now c.sydneyMidnight) := by
  have h1 : (("u:" ++ u ++ ":10s" : String) == ("ip:" ++ ip ++ ":10s")) = false :=
    beq_eq_false_iff_ne.mpr (key_user_ne_ip u ip)
  have h2 : (("ip:" ++ ip ++ ":10s" : String) == ("u:" ++ u ++ ":day:" ++ c.sydneyDay)) = false :=
    beq_eq_false_iff_ne.mpr (key_ip_ne_day ip u c.sydneyDay)
  have h3 : (("u:" ++ u ++ ":10s" : String) == ("u:" ++ u ++ ":day:" ++ c.sydneyDay)) = false :=
    beq_eq_false_iff_ne.mpr (key_user_ne_day u c.sydneyDay)
  have h4 : (("u:" ++ u ++ ":day:" ++ c.sydneyDay : String) == ("admin:limit:" ++ u)) = false :=
    beq_eq_false_iff_ne.mpr (key_day_ne_admin u c.sydneyDay u)
  have h5 : (("ip:" ++ ip ++ ":10s" : String) == ("admin:limit:" ++ u)) = false :=
    beq_eq_false_iff_ne.mpr (key_ip_ne_admin ip u)
  have h6 : (("u:" ++ u ++ ":10s" : String) == ("admin:limit:" ++ u)) = false :=
    beq_eq_false_iff_ne.mpr (key_user_ne_admin u u)
  simp [enforceLimits, bumpCounter, kvGetCaught, Store.get, Store.put, Store.lookupVal,
    emptyStore, burstStore, parseCtr, bne, Bind.bind, Except.bind, pure, Except.pure,
    h1, h2, h3, h4, h5, h6]

/-- A further admitted request inside the window: every counter bumps to
`k + 1`, window starts stay at `t1`, expirations refresh to the current time. -/
theorem enforceLimits_step (c : Clock) (u ip d : String) (k t1 tp mid : Int)
    (hday : c.sydneyDay = d)
    (hk : k + 1 ≤ 5)
    (ht : tp ≤ c.now) (hw : c.now < tp + 10000)
    (hmid : 60 ≤ mid) :
    enforceLimits c (burstStore u ip d k t1 tp mid) u ip =
      .ok (.allowed, burstStore u ip d (k + 1) t1 c.now c.sydneyMidnight) := by
  subst hday
  have g1 : (("u:" ++ u ++ ":day:" ++ c.sydneyDay : String) == ("u:" ++ u ++ ":10s")) = false :=
    beq_eq_false_iff_ne.mpr (key_user_ne_day u c.sydneyDay).symm
  have g2 : (("ip:" ++ ip ++ ":10s" : String) == ("u:" ++ u ++ ":10s")) = false :=
    beq_eq_false_iff_ne.mpr (key_user_ne_ip u ip).symm
  have g3 : (("u:" ++ u ++ ":10s" : String) == ("ip:" ++ ip ++ ":10s")) = false :=
    beq_eq_false_iff_ne.mpr (key_user_ne_ip u ip)
  have g4 : (("u:" ++ u ++ ":day:" ++ c.sydneyDay : String) == ("ip:" ++ ip ++ ":10s")) = false :=
    beq_eq_false_iff_ne.mpr (key_ip_ne_day ip u c.sydneyDay).symm
  have g5 : (("ip:" ++ ip ++ ":10s" : String) == ("u:" ++ u ++ ":day:" ++ c.sydneyDay)) = false :=
    beq_eq_false_iff_ne.mpr (key_ip_ne_day ip u c.sydneyDay)
  have g6 : (("u:" ++ u ++ ":10s" : String) == ("u:" ++ u ++ ":day:" ++ c.sydneyDay)) = false :=
    beq_eq_false_iff_ne.mpr (key_user_ne_day u c.sydneyDay)
  have g7 : (("u:" ++ u ++ ":day:" ++ c.sydneyDay : String) == ("admin:limit:" ++ u)) = false :=
    beq_eq_false_iff_ne.mpr (key_day_ne_admin u c.sydneyDay u)
  have g8 : (("ip:" ++ ip ++ ":10s" : String) == ("admin:limit:" ++ u)) = false :=
    beq_eq_false_iff_ne.mpr (key_ip_ne_admin ip u)
  have g9 : (("u:" ++ u ++ ":10s" : String) == ("admin:limit:" ++ u)) = false :=
    beq_eq_false_iff_ne.mpr (key_user_ne_admin u u)
  have hlday : c.now < tp + mid * 1000 := by omega
  have hc5 : ¬ (5 < k + 1) := by omega
  have hc10 : ¬ (10 < k + 1) := by omega
  have hc200 : ¬ ((200 : Int) < k + 1) := by omega
  simp [enforceLimits, bumpCounter, kvGetCaught, Store.get, Store.put, Store.lookupVal,
    burstStore, parseCtr, bne, Entry.live, Bind.bind, Except.bind, pure, Except.pure,
    g1, g2, g3, g4, g5, g6, g7, g8, g9, hw, hlday, hc5, hc10, hc200]

/-- The store after a `user_burst` denial at clock `c`: the user counter was
bumped to `k + 1` (expiration refreshed), the rate-limited statistics counter
was written, the other records are untouched. -/
def denyStore (c : Clock) (u ip d : String) (k t1 tp mid : Int) : Store :=
  ⟨[⟨"stats:ratelimited:" ++ c.today, .num 1, some (c.now + 604800000)⟩,
    ⟨"u:" ++ u ++ ":10s", .ctr (k + 1) t1, some (c.now + 10000)⟩,
    ⟨"u:" ++ u ++ ":day:" ++ d, .ctr k t1, some (tp + mid * 1000)⟩,
    ⟨"ip:" ++ ip ++ ":10s", .ctr k t1, some (tp + 10000)⟩],
   fun _ => false, fun _ => false⟩

/-- A request finding the user burst counter at `k ≥ 5` inside the window is
denied with reason `user_burst` and the retry hint computed from the stored
window start `t1`. -/
theorem enforceLimits_deny (c : Clock) (u ip d : String) (k t1 tp mid : Int)
    (hk : 5 ≤ k) (hw : c.now < tp + 10000) :
    enforceLimits c (burstStore u ip d k t1 tp mid) u ip =
      .ok (.denied "user_burst" "Slow down a bit (friction time). Try again shortly."
        (max 1 (ceilDiv1000 (10000 - (c.now - t1)))), denyStore c u ip d k t1 tp mid) := by
  have g1 : (("u:" ++ u ++ ":day:" ++ d : String) == ("u:" ++ u ++ ":10s")) = false :=
    beq_eq_false_iff_ne.mpr (key_user_ne_day u d).symm
  have g2 : (("ip:" ++ ip ++ ":10s" : String) == ("u:" ++ u ++ ":10s")) = false :=
    beq_eq_false_iff_ne.mpr (key_user_ne_ip u ip).symm
  have s1 : (("u:" ++ u ++ ":10s" : String) == ("stats:ratelimited:" ++ c.today)) = false :=
    beq_eq_false_iff_ne.mpr (key_user_ne_stats u c.today)
  have s2 : (("u:" ++ u ++ ":day:" ++ d : String) == ("stats:ratelimited:" ++ c.today)) = false :=
    beq_eq_false_iff_ne.mpr (key_day_ne_stats u d c.today)
  have s3 : (("ip:" ++ ip ++ ":10s" : String) == ("stats:ratelimited:" ++ c.today)) = false :=
    beq_eq_false_iff_ne.mpr (key_ip_ne_stats ip c.today)
  have hgt : 5 < k + 1 := by omega
  simp [enforceLimits, bumpCounter, trackRateLimitEvent, parseIntVal, kvGetCaught,
    Store.get, Store.put, Store.lookupVal, burstStore, denyStore, parseCtr, bne,
    Entry.live, Bind.bind, Except.bind, pure, Except.pure,
    g1, g2, s1, s2, s3, hw, hgt]

/-- Claim C2: from a fresh store, a new user's requests at monotone times
`c1 ≤ … ≤ c6` all inside one 10-second window (and one Sydney day stamp, with
the source-guaranteed `secondsUntilSydneyMidnight ≥ 60`) — the first five pass
the per-user burst check and are admitted, and the sixth is denied with reason
`user_burst` and a `retryAfterSeconds` between 1 and the 10-second window
length inclusive. -/
theorem c2_user_burst (u ip d : String) (c1 c2 c3 c4 c5 c6 : Clock)
    (hd1 : c1.sydneyDay = d) (hd2 : c2.sydneyDay = d) (hd3 : c3.sydneyDay = d)
    (hd4 : c4.sydneyDay = d) (hd5 : c5.sydneyDay = d)
    (hm1 : 60 ≤ c1.sydneyMidnight) (hm2 : 60 ≤ c2.sydneyMidnight)
    (hm3 : 60 ≤ c3.sydneyMidnight) (hm4 : 60 ≤ c4.sydneyMidnight)
    (h12 : c1.now ≤ c2.now) (h23 : c2.now ≤ c3.now) (h34 : c3.now ≤ c4.now)
    (h45 : c4.now ≤ c5.now) (h56 : c5.now ≤ c6.now)
    (hw : c6.now < c1.now + 10000) :
    runLimits u ip [c1, c2, c3, c4, c5, c6] emptyStore =
      .ok ([.allowed, .allowed, .allowed, .allowed, .allowed,
        .denied "user_burst" "Slow down a bit (friction time). Try again shortly."
          (max 1 (ceilDiv1000 (10000 - (c6.now - c1.now))))],
        denyStore c6 u ip d 5 c1.now c5.now c5.sydneyMidnight) ∧
      1 ≤ max 1 (ceilDiv1000 (10000 - (c6.now - c1.now))) ∧
      max 1 (ceilDiv1000 (10000 - (c6.now - c1.now))) ≤ 10 := by
  refine ⟨?_, le_max_left 1 _, ?_⟩
  · have e1 := enforceLimits_fresh c1 u ip
    rw [hd1] at e1
    have e2 := enforceLimits_step c2 u ip d 1 c1.now c1.now c1.sydneyMidnight hd2
      (by omega) h12 (by omega) hm1
    have e3 := enforceLimits_step c3 u ip d 2 c1.now c2.now c2.sydneyMidnight hd3
      (by omega) h23 (by omega) hm2
    have e4 := enforceLimits_step c4 u ip d 3 c1.now c3.now c3.sydneyMidnight hd4
      (by omega) h34 (by omega) hm3
    have e5 := enforceLimits_step c5 u ip d 4 c1.now c4.now c4.sydneyMidnight hd5
      (by omega) h45 (by omega) hm4
    have e6 := enforceLimits_deny c6 u ip d 5 c1.now c5.now c5.sydneyMidnight
      (by omega) (by omega)
    simp [runLimits, e1, e2, e3, e4, e5, e6, Bind.bind, Except.bind, pure, Except.pure]
  · refine max_le (by norm_num) ?_
    unfold ceilDiv1000
    omega

/-- Witness for `c2_user_burst`: six requests at 0 s, 1 s, …, 5 s. -/
theorem c2_user_burst_witness :
    runLimits "alice" "9.9.9.9" [sampleClock 0, sampleClock 1000, sampleClock 2000,
      sampleClock 3000, sampleClock 4000, sampleClock 5000] emptyStore =
      .ok ([.allowed, .allowed, .allowed, .allowed, .allowed,
        .denied "user_burst" "Slow down a bit (friction time). Try again shortly."
          (max 1 (ceilDiv1000 (10000 - ((sampleClock 5000).now - (sampleClock 0).now))))],
        denyStore (sampleClock 5000) "alice" "9.9.9.9" "2026-01-02" 5 0 4000 3600) ∧
      1 ≤ max 1 (ceilDiv1000 (10000 - ((sampleClock 5000).now - (sampleClock 0).now))) ∧
      max 1 (ceilDiv1000 (10000 - ((sampleClock 5000).now - (sampleClock 0).now))) ≤ 10 :=
  c2_user_burst "alice" "9.9.9.9" "2026-01-02"
    (sampleClock 0) (sampleClock 1000) (sampleClock 2000)
    (sampleClock 3000) (sampleClock 4000) (sampleClock 5000)
    rfl rfl rfl rfl rfl
    (by decide) (by decide) (by decide) (by decide)
    (by decide) (by decide) (by decide) (by decide) (by decide)
    (by decide)

/-! ## C3 amended and C4 amended -/

/-- Claim C3 amended: for every `user_burst` denial, `retryAfterSeconds` is the
time remaining until the stored window start plus the window length, clamped
below at 1 second — computed from the stored `windowStart`, whatever store
state the counter was found in. -/
theorem c3_amended (c : Clock) (kv : Store) (u ip : String) (k t1 : Int)
    (hget : kvGetCaught kv c.now ("u:" ++ u ++ ":10s") = some (.ctr k t1))
    (hk : 5 ≤ k)
    (hpu : kv.failPut ("u:" ++ u ++ ":10s") = false)
    (hgs : kv.failGet ("stats:ratelimited:" ++ c.today) = false)
    (hps : kv.failPut ("stats:ratelimited:" ++ c.today) = false) :
    (enforceLimits c kv u ip).toOption.map Prod.fst =
      some (.denied "user_burst" "Slow down a bit (friction time). Try again shortly."
        (max 1 (ceilDiv1000 (10000 - (c.now - t1))))) := by
  have hgt : 5 < k + 1 := by omega
  simp [enforceLimits, bumpCounter, trackRateLimitEvent, hget, parseCtr,
    Store.get, Store.put, hpu, hgs, hps, Bind.bind, Except.bind, pure, Except.pure, hgt]
  exact ⟨_, rfl⟩

/-- Witness for `c3_amended`: a user found at count 5 (window started at 0) is
denied at t = 500 with the hint to the window's expiry. -/
theorem c3_amended_witness :
    (enforceLimits (sampleClock 500) exhaustedBurstStore "user1" "1.2.3.4").toOption.map
        Prod.fst =
      some (.denied "user_burst" "Slow down a bit (friction time). Try again shortly."
        (max 1 (ceilDiv1000 (10000 - ((sampleClock 500).now - 0))))) :=
  c3_amended (sampleClock 500) exhaustedBurstStore "user1" "1.2.3.4" 5 0
    (by decide) (by decide) (by decide) (by decide) (by decide)

/-- Does the admission check return a decision (as opposed to raising)? -/
def returnsDecision (r : Except Unit (LimitResult × Store)) : Bool :=
  match r with
  | .ok _ => true
  | .error _ => false

/-- A counter bump on a store that accepts the write succeeds and leaves the
failure policies unchanged. -/
theorem bumpCounter_isOk (now : Int) (kv : Store) (key : String) (ttl : Int)
    (hp : kv.failPut key = false) :
    ∃ r s', bumpCounter now kv key ttl = .ok (r, s') ∧
      (∀ k, s'.failGet k = kv.failGet k) ∧ (∀ k, s'.failPut k = kv.failPut k) := by
  refine ⟨⟨(parseCtr (kvGetCaught kv now key) now).1 + 1,
      max 1 (ceilDiv1000 (ttl * 1000 - (now - (parseCtr (kvGetCaught kv now key) now).2)))⟩,
    { kv with entries := ⟨key, .ctr ((parseCtr (kvGetCaught kv now key) now).1 + 1)
        ((parseCtr (kvGetCaught kv now key) now).2), some (now + ttl * 1000)⟩ ::
        kv.entries.filter (fun e => e.key != key) }, ?_, fun _ => rfl, fun _ => rfl⟩
  simp [bumpCounter, Store.put, hp, Bind.bind, Except.bind, pure, Except.pure]

/-- The rate-limit-event counter write succeeds when the statistics key is
readable and writable. -/
theorem trackRateLimitEvent_isOk (clk : Clock) (s : Store)
    (hg : s.failGet ("stats:ratelimited:" ++ clk.today) = false)
    (hp : s.failPut ("stats:ratelimited:" ++ clk.today) = false) :
    ∃ s', trackRateLimitEvent clk s = .ok s' := by
  simp [trackRateLimitEvent, Store.get, Store.put, hg, hp, Bind.bind, Except.bind]

/-- Claim C4 amended: `enforceLimits` returns an allow/deny decision whenever
the store accepts the three counter writes and the custom-limit and
rate-limit-statistics reads/writes (counter reads may fail arbitrarily — those
are swallowed as fresh windows); outside these conditions a store failure
propagates as an exception (counterexample above). -/
theorem c4_amended (clk : Clock) (kv : Store) (u ip : String)
    (hpu : kv.failPut ("u:" ++ u ++ ":10s") = false)
    (hpi : kv.failPut ("ip:" ++ ip ++ ":10s") = false)
    (hpd : kv.failPut ("u:" ++ u ++ ":day:" ++ clk.sydneyDay) = false)
    (hga : kv.failGet ("admin:limit:" ++ u) = false)
    (hgs : kv.failGet ("stats:ratelimited:" ++ clk.today) = false)
    (hps : kv.failPut ("stats:ratelimited:" ++ clk.today) = false) :
    returnsDecision (enforceLimits clk kv u ip) = true := by
  obtain ⟨r1, s1, e1, hg1, hp1⟩ := bumpCounter_isOk clk.now kv ("u:" ++ u ++ ":10s") 10 hpu
  unfold enforceLimits
  rw [e1]
  simp only [Bind.bind, Except.bind]
  by_cases hb1 : r1.count > 5
  · obtain ⟨t1, et1⟩ := trackRateLimitEvent_isOk clk s1
      ((hg1 _).trans hgs) ((hp1 _).trans hps)
    simp [hb1, et1, returnsDecision, Bind.bind, Except.bind, pure, Except.pure]
  · obtain ⟨r2, s2, e2, hg2, hp2⟩ := bumpCounter_isOk clk.now s1 ("ip:" ++ ip ++ ":10s") 10
      ((hp1 _).trans hpi)
    simp only [hb1, if_false, e2, Except.bind]
    by_cases hb2 : r2.count > 10
    · obtain ⟨t2, et2⟩ := trackRateLimitEvent_isOk clk s2
        ((hg2 _).trans ((hg1 _).trans hgs)) ((hp2 _).trans ((hp1 _).trans hps))
      simp [hb2, et2, returnsDecision, Bind.bind, Except.bind, pure, Except.pure]
    · obtain ⟨r3, s3, e3, hg3, hp3⟩ := bumpCounter_isOk clk.now s2
        ("u:" ++ u ++ ":day:" ++ clk.sydneyDay) clk.sydneyMidnight
        ((hp2 _).trans ((hp1 _).trans hpd))
      simp only [hb2, if_false, e3, Except.bind]
      have hga3 : s3.failGet ("admin:limit:" ++ u) = false :=
        (hg3 _).trans ((hg2 _).trans ((hg1 _).trans hga))
      simp only [Store.get, hga3, if_false, Bool.false_eq_true, Except.bind]
      by_cases hb3 : r3.count >
          (match s3.lookupVal clk.now ("admin:limit:" ++ u) with
            | some (.num n) => n
            | _ => 200)
      · obtain ⟨t3, et3⟩ := trackRateLimitEvent_isOk clk s3
          ((hg3 _).trans ((hg2 _).trans ((hg1 _).trans hgs)))
          ((hp3 _).trans ((hp2 _).trans ((hp1 _).trans hps)))
        simp [hb3, et3, returnsDecision, Bind.bind, Except.bind, pure, Except.pure]
      · simp [hb3, returnsDecision, pure, Except.pure]

/-- Witness for `c4_amended`: a healthy store (counter reads failing included)
still yields a decision. -/
theorem c4_amended_witness :
    returnsDecision (enforceLimits (sampleClock 0)
      ⟨[], fun k => decide (k = "u:user1:10s"), fun _ => false⟩ "user1" "1.2.3.4") = true :=
  c4_amended (sampleClock 0) ⟨[], fun k => decide (k = "u:user1:10s"), fun _ => false⟩
    "user1" "1.2.3.4" rfl rfl rfl (by decide) (by decide) rfl

/-! ## C7 amended and C10 amended -/

/-- Claim C7 amended: in the `src/src/index.js` chat route the model-access
check (line 84) precedes rate limiting (line 124), so a paid-model request
from a non-admin identity is answered 403 regardless of the message list, the
provider, and the entire key-value-store state; in `part_000`'s handler rate
limiting runs first, so there an exhausted window yields 429 instead
(counterexample above), and 403 only once admission passes. -/
theorem c7_amended (adminEmail sysPrompt : String) (hasKv : Bool) (email : String)
    (req : SrcReq) (clk : Clock) (provider : ProviderOracle) (kv : Store)
    (hpaid : req.model ∈ PAID_MODELS)
    (hadmin : chatIsAdmin email adminEmail = false) :
    chatRouteSrc adminEmail sysPrompt hasKv (some email) req clk provider kv =
      (out 403 .err, kv) := by
  simp [chatRouteSrc, chatRouteSrcBody, hpaid, hadmin, Bind.bind, Except.bind,
    pure, Except.pure]

/-- Witness for `c7_amended`: a non-admin claude request is 403 even against a
completely unreachable store. -/
theorem c7_amended_witness :
    chatRouteSrc "admin@x.com" "p" true (some "bob@x.com") ⟨"claude", []⟩ (sampleClock 0)
      sampleProvider deadStore = (out 403 .err, deadStore) :=
  c7_amended "admin@x.com" "p" true "bob@x.com" ⟨"claude", []⟩ (sampleClock 0)
    sampleProvider deadStore (by decide) (by decide)

/-- Claim C10 amended: in the `src/src/index.js` chat route, `logAnalytics`
never returns an error to its caller — any store failure inside it is caught —
so for a valid gemini request whose rate-limit bucket is readable, writable and
below the limit, the route answers 200 with the provider's text no matter how
the store behaves on the analytics keys.  In `part_000`'s handler the
usage-statistics writes sit inside the main `try` with no individual catch, so
a store failure there turns a successful provider call into a 500
(counterexample above). -/
theorem c10_amended (adminEmail sysPrompt email txt : String) (req : SrcReq)
    (clk : Clock) (provider : ProviderOracle) (kv : Store)
    (hmodel : req.model = "gemini")
    (hmsgs : req.messages ≠ [])
    (hclean : cleanMessages none req.messages ≠ [])
    (hlast : ((cleanMessages none req.messages).getLast?.map Msg.role).getD "" = "user")
    (hrg : kv.failGet ("rate:" ++ ("chat:" ++ hashEmail email) ++ ":" ++
      toString (clk.now / 600000)) = false)
    (hrp : kv.failPut ("rate:" ++ ("chat:" ++ hashEmail email) ++ ":" ++
      toString (clk.now / 600000)) = false)
    (hcount : parseIntVal (kv.lookupVal clk.now ("rate:" ++ ("chat:" ++ hashEmail email) ++
      ":" ++ toString (clk.now / 600000))) < 60)
    (hprov : provider "gemini" (Msg.mk "system" sysPrompt :: cleanMessages none req.messages)
      = .ok txt) :
    (chatRouteSrc adminEmail sysPrompt true (some email) req clk provider kv).1 =
      out 200 (.response txt) := by
  have h1 : req.messages.isEmpty = false := by
    simpa [List.isEmpty_iff] using hmsgs
  have h2 : (cleanMessages none req.messages).isEmpty = false := by
    simpa [List.isEmpty_iff] using hclean
  have h3 : ¬ (60 ≤ parseIntVal (kv.lookupVal clk.now ("rate:" ++ ("chat:" ++ hashEmail email)
      ++ ":" ++ toString (clk.now / 600000)))) := not_le.mpr hcount
  simp [chatRouteSrc, chatRouteSrcBody, enforceRateLimit, Store.get, Store.put,
    hmodel, h1, h2, hlast, hrg, hrp, h3, hprov, Bind.bind, Except.bind, pure, Except.pure,
    PAID_MODELS, KNOWN_MODELS]

/-- A store failing exactly on today's analytics aggregate key. -/
def analyticsFailStore : Store :=
  ⟨[], fun k => k == "analytics:2026-01-01", fun k => k == "analytics:2026-01-01"⟩

/-- Witness for `c10_amended`: with the analytics key failing both ways, the
gemini request still returns 200 with the provider's answer. -/
theorem c10_amended_witness :
    (chatRouteSrc "admin@x.com" "p" true (some "bob@x.com")
      ⟨"gemini", [⟨"user", some "hi"⟩]⟩ (sampleClock 500) sampleProvider
      analyticsFailStore).1 = out 200 (.response "hello") :=
  c10_amended "admin@x.com" "p" "bob@x.com" "hello" ⟨"gemini", [⟨"user", some "hi"⟩]⟩
    (sampleClock 500) sampleProvider analyticsFailStore
    rfl (by decide) (by decide) (by decide) (by decide) (by decide) (by decide) rfl

end Spec2Proof
